import Mathlib

set_option maxHeartbeats 1000000
set_option maxRecDepth 4000

/-!
Verification of the HNGstage4 notification pipeline.

This file gives a shallow embedding, in Lean 4, of the parts of the source
relevant to the frozen claims: the JSON data model, the response formatter
(`src/utils/response_formatter.py`), the idempotency store
(`src/utils/idempotency.py`), the retry helper (`src/utils/retry_utils.py`),
the submission endpoint (`src/api_gateway.py` `send_notification`), the
router (`src/worker_services/emailservice1/notification_router.py`), the
email channel worker and its retry sweeper
(`src/worker_services/emailservice1/email_service.py`), the broker topology
initializer (`src/rabbitmq.py`) and template rendering
(`src/template_service.py` `render_content`).
-/

/-- JSON-like values, mirroring the Python dict/list/str/int/bool/None data
that flows through the pipeline. Objects are association lists in insertion
order, as Python dicts are. -/
inductive JVal where
  | null : JVal
  | bool (b : Bool) : JVal
  | int (n : Int) : JVal
  | str (s : String) : JVal
  | arr (xs : List JVal) : JVal
  | obj (kvs : List (String × JVal)) : JVal

/-- Python truthiness (`bool(x)`): None, False, 0, "", [], \x7b\x7d are falsy. -/
def jvTruthy : JVal → Bool
  | .null => false
  | .bool b => b
  | .int n => n != 0
  | .str s => s != ""
  | .arr xs => !xs.isEmpty
  | .obj kvs => !kvs.isEmpty

/-- `d.get(k)` on a Python dict: `None` (here `Option.none`) when the key is
absent or the value is not a dict. -/
def jGet : JVal → String → Option JVal
  | .obj kvs, k => kvs.lookup k
  | _, _ => none

/-- `d.get(k, default)`. -/
def jGetD (v : JVal) (k : String) (d : JVal) : JVal :=
  (jGet v k).getD d

/-- `'k' in d` on a Python dict. -/
def jHasKey (v : JVal) (k : String) : Bool :=
  (jGet v k).isSome

/-- Python `a or b`: `a` when truthy, else `b`. -/
def jvOr (a b : JVal) : JVal :=
  if jvTruthy a then a else b

/-- An HTTP response as produced by the FastAPI layer: a status code and a
JSON body. -/
structure PyResponse where
  statusCode : Nat
  body : JVal

/-- `format_response` from `src/utils/response_formatter.py`, specialized to
the call shapes used by the gateway (`total`/`page`/`limit` left at their
defaults, so the pagination fields are `None` except `limit=10`, `page=1`).
`None`-valued fields are removed from the body and from `meta`, in insertion
order `success, data, message, error, meta`. -/
def format_response (success : Bool) (data : Option JVal) (message : JVal)
    (error : Option JVal) (status_code : Nat) : PyResponse :=
  let fields : List (String × Option JVal) :=
    [("success", some (JVal.bool success)), ("data", data),
     ("message", some message), ("error", error)]
  let meta : List (String × JVal) := [("limit", .int 10), ("page", .int 1)]
  { statusCode := status_code
    body := .obj ((fields.filterMap fun p => p.2.map fun v => (p.1, v)) ++
      [("meta", .obj meta)]) }

/-- `success_response(data=..., message=..., status_code=...)`. -/
def success_response (data : JVal) (message : String) (status_code : Nat) :
    PyResponse :=
  format_response true (some data) (.str message) none status_code

/-- `error_response(message=..., status_code=..., error=...)`; its `error`
field defaults to the message (`error or message`). -/
def error_response (message : JVal) (status_code : Nat) (error : Option JVal) :
    PyResponse :=
  format_response false none message (some (error.getD message)) status_code

/-! ## Idempotency store (`src/utils/idempotency.py`) -/

/-- The Redis key space seen by `IdempotencyManager`: an association list with
newest binding first (`SETEX` overwrites; `lookup` takes the first hit). -/
abbrev IdemStore := List (String × JVal)

/-- `IdempotencyManager.get_key`: keys are namespaced `idempotency:<k>`. -/
def idem_get_key (k : String) : String := "idempotency:" ++ k

/-- Is this optional JSON value the given string? Mirrors a Python `==`
comparison of `d.get(k)` against a string literal. -/
def jIsStrEq (v : Option JVal) (s : String) : Bool :=
  match v with
  | some (.str t) => t == s
  | _ => false

/-- `IdempotencyManager.store_response`: serialize
`\x7b status: completed, response, timestamp \x7d` under the namespaced key.
An empty key raises `ValueError`, swallowed like a `RedisError`
(`redisOk = false`): the store is left unchanged in either case. -/
def store_response (st : IdemStore) (k : String) (resp : JVal) (now : Int)
    (redisOk : Bool) : IdemStore :=
  if !redisOk then st
  else if k = "" then st
  else (idem_get_key k,
    JVal.obj [("status", .str "completed"), ("response", resp),
              ("timestamp", .int now)]) :: st

/-- `IdempotencyManager.check_duplicate`: a falsy key or a Redis error yields
`none` (fail open); otherwise the stored record is returned when its
`status` is `completed`. -/
def check_duplicate (st : IdemStore) (k : String) (redisOk : Bool) :
    Option JVal :=
  if k = "" then none
  else if !redisOk then none
  else match st.lookup (idem_get_key k) with
    | some data =>
        if jIsStrEq (jGet data "status") "completed" then jGet data "response"
        else none
    | none => none

/-! ## Retry helper (`src/utils/retry_utils.py`) -/

/-- The Python exceptions that matter on the publish path. -/
inductive PyExc where
  | httpException (status : Nat) (detail : String)
  | requestException (msg : String)
  | maxRetriesExceeded (msg : String)
deriving DecidableEq, Repr

/-- `isinstance(e, requests.exceptions.RequestException)` — the only
exception class `retry_with_backoff` catches by default. -/
def isRequestException : PyExc → Bool
  | .requestException _ => true
  | _ => false

/-- `str(e)` for the exceptions above (`FastAPI HTTPException` formats as
`"<status>: <detail>"`). -/
def pyExcStr : PyExc → String
  | .httpException c d => toString c ++ ": " ++ d
  | .requestException m => m
  | .maxRetriesExceeded m => m

/-- The attempt loop of `retry_with_backoff`: `n` remaining retries. A
non-`RequestException` error propagates immediately; a `RequestException`
is retried until the budget is exhausted, then re-raised as
`MaxRetriesExceededError`. -/
def retryGo {α : Type} (f : Unit → Except PyExc α) : Nat → Except PyExc α
  | 0 =>
    match f () with
    | .ok a => .ok a
    | .error e =>
        if isRequestException e then
          .error (.maxRetriesExceeded ("Failed after retries. Last error: " ++ pyExcStr e))
        else .error e
  | n + 1 =>
    match f () with
    | .ok a => .ok a
    | .error e => if isRequestException e then retryGo f n else .error e

/-- `retry_with_backoff(max_retries, ...)` applied to a deterministic body. -/
def retry_with_backoff {α : Type} (max_retries : Nat)
    (f : Unit → Except PyExc α) : Except PyExc α :=
  retryGo f max_retries

/-! ## Circuit breaker

Modelled from the spec: the `pybreaker.CircuitBreaker` implementation is a
third-party library, not under src/; `src/api_gateway.py` configures two
instances with `fail_max=5`, `reset_timeout=60` and
`exclude=[requests.exceptions.HTTPError]`. Per the spec (4.C): closed → open
after 5 consecutive connection-class failures; open fails fast; after the
reset timeout one half-open probe is allowed; well-formed upstream HTTP
error responses are excluded from the failure budget (they reset the
consecutive-failure counter, as a success does). -/

/-- Breaker states: `closed` carries the consecutive-failure counter. -/
inductive BreakerState where
  | closed (failCount : Nat)
  | opened
  | halfOpen
deriving DecidableEq, Repr

/-- `fail_max=5` from `src/api_gateway.py`. -/
def FAIL_MAX : Nat := 5

/-- What a protected call does when it is actually executed. -/
inductive CallOutcome where
  | success
  | excludedError
  | connFailure
deriving DecidableEq, Repr

/-- State after an executed call: successes and excluded errors reset the
counter; a connection-class failure increments it and opens the breaker at
`FAIL_MAX`; a failed half-open probe re-opens. -/
def breakerAfterCall : BreakerState → CallOutcome → BreakerState
  | .closed _, .success => .closed 0
  | .closed _, .excludedError => .closed 0
  | .closed c, .connFailure =>
      if FAIL_MAX ≤ c + 1 then .opened else .closed (c + 1)
  | .opened, _ => .opened
  | .halfOpen, .success => .closed 0
  | .halfOpen, .excludedError => .closed 0
  | .halfOpen, .connFailure => .opened

/-- An open breaker fails fast: the protected function is not invoked. -/
def breakerAllowsCall : BreakerState → Bool
  | .opened => false
  | _ => true

/-- Events driving a breaker over time: an attempted call (with the outcome
the upstream would produce) or the reset-timeout expiry. -/
inductive BreakerEvent where
  | call (o : CallOutcome)
  | timerExpire
deriving DecidableEq, Repr

/-- One event step, also recording the outcomes of the calls that actually
executed (fail-fast attempts while open execute nothing). -/
def breakerStep (s : BreakerState × List CallOutcome) (e : BreakerEvent) :
    BreakerState × List CallOutcome :=
  match e with
  | .timerExpire => (if s.1 = .opened then .halfOpen else s.1, s.2)
  | .call o =>
      if breakerAllowsCall s.1 then (breakerAfterCall s.1 o, s.2 ++ [o])
      else (s.1, s.2)

/-- Run a breaker from an initial state over an event trace. -/
def breakerRun (init : BreakerState × List CallOutcome)
    (evs : List BreakerEvent) : BreakerState × List CallOutcome :=
  evs.foldl breakerStep init

/-- Length of the trailing run of connection-class failures in the executed
outcomes. -/
def leadingConn : List CallOutcome → Nat
  | .connFailure :: t => leadingConn t + 1
  | _ => 0

/-- Trailing consecutive connection failures (most recent call last). -/
def trailingConn (l : List CallOutcome) : Nat :=
  leadingConn l.reverse

/-! ## Submission API (`src/api_gateway.py` `send_notification`) -/

/-- Result of an upstream HTTP request, had it been issued: a 2xx JSON body,
an HTTP error status (`raise_for_status` raises `HTTPError`), or a
connection-class failure. -/
inductive HttpOutcome where
  | ok (body : JVal)
  | errStatus (code : Nat) (body : JVal)
  | connError

/-- The gateway request body (`NotificationRequest` pydantic model). -/
structure NotificationRequest where
  user_id : String
  template_key : String
  message_data : JVal

/-- The environment of one `POST /v1/notifications` call: what each external
collaborator would do if invoked. -/
structure GatewayEnv where
  userOutcome : HttpOutcome
  templateOutcome : HttpOutcome
  hasMqDriver : Bool
  publishOk : Bool
  idemManagerUp : Bool
  idemGetOk : Bool
  idemStoreOk : Bool
  requestId : String
  now : Int

/-- Per-process gateway state: the two breakers and the idempotency keyspace. -/
structure GatewayState where
  userBreaker : BreakerState
  templateBreaker : BreakerState
  idemStore : IdemStore

/-- Observable outcome of one `send_notification` call: the HTTP response,
how many upstream HTTP requests were actually issued, how many envelopes
were published to the `notifications` queue, and the idempotency effect. -/
structure GatewayResult where
  response : PyResponse
  userHttpCalls : Nat
  templateHttpCalls : Nat
  envelopesPublished : Nat
  idemStored : Bool
  idemStore : IdemStore
  userBreaker : BreakerState
  templateBreaker : BreakerState

/-- Python truthiness of the optional `X-Idempotency-Key` header. -/
def optStrTruthy : Option String → Bool
  | some s => s != ""
  | none => false

/-- `call_user_service`: a response already holding a `data` key is returned
as-is, anything else is wrapped in the standard envelope. -/
def wrap_user_response (body : JVal) : JVal :=
  if jHasKey body "data" then body
  else .obj [("success", .bool true), ("data", body),
             ("message", .str "User data retrieved successfully")]

/-- Step 1 of `send_notification`: the breaker-protected user-service call
and its error mapping. Returns the extracted `user_data` or the error
response, the breaker state after the call, and the number of upstream HTTP
requests issued. -/
def gw_user_step (ub : BreakerState) (outcome : HttpOutcome) (uid : String) :
    Except PyResponse JVal × BreakerState × Nat :=
  match breakerAllowsCall ub with
  | false =>
      (.error (error_response
        (.str "User Service is temporarily unavailable (Circuit Breaker OPEN). Try again later.")
        503 none), ub, 0)
  | true =>
    match outcome with
    | .connError =>
        (.error (error_response (.str "User Service is unreachable.") 503 none),
         breakerAfterCall ub .connFailure, 1)
    | .errStatus code _ =>
        if code = 404 then
          (.error (error_response
            (.str ("User with ID \x27" ++ uid ++ "\x27 not found.")) 404 none),
           breakerAfterCall ub .excludedError, 1)
        else
          (.error (error_response
            (.str "User Service returned an unexpected error.") 503 none),
           breakerAfterCall ub .excludedError, 1)
    | .ok body =>
        let resp := wrap_user_response body
        if !jvTruthy (jGetD resp "success" (.bool false)) then
          (.error (error_response
            (jGetD resp "message" (.str "User Service returned an error")) 503
            (some (jGetD resp "error" (.str "Unknown error")))),
           breakerAfterCall ub .success, 1)
        else
          let user_data := jGetD resp "data" (.obj [])
          if !jvTruthy user_data then
            (.error (error_response (.str "Failed to process user data") 500
              (some (.str "No user data found in response"))),
             breakerAfterCall ub .success, 1)
          else (.ok user_data, breakerAfterCall ub .success, 1)

/-- Step 2 of `send_notification`: the breaker-protected template-service
call and its error mapping (`404`/`400` surface the upstream `detail`). -/
def gw_template_step (tb : BreakerState) (outcome : HttpOutcome) :
    Except PyResponse JVal × BreakerState × Nat :=
  match breakerAllowsCall tb with
  | false =>
      (.error (error_response
        (.str "Template Service is temporarily unavailable (Circuit Breaker OPEN). Try again later.")
        503 none), tb, 0)
  | true =>
    match outcome with
    | .connError =>
        (.error (error_response (.str "Template Service is unreachable.") 503 none),
         breakerAfterCall tb .connFailure, 1)
    | .errStatus code body =>
        if code = 404 ∨ code = 400 then
          (.error (error_response
            (jGetD body "detail" (.str "Template rendering failed due to bad input."))
            code none),
           breakerAfterCall tb .excludedError, 1)
        else
          (.error (error_response
            (.str "Template Service returned an unexpected error.") 503 none),
           breakerAfterCall tb .excludedError, 1)
    | .ok body => (.ok body, breakerAfterCall tb .success, 1)

/-- Step 3 of `send_notification`: the envelope published to the
`notifications` queue. -/
def build_final_payload (user_data rendered : JVal) (template_key : String) :
    JVal :=
  .obj [("user_id", jvOr (jGetD user_data "user_id" .null)
                         (jGetD user_data "id" .null)),
        ("delivery_targets", .obj
          [("email", jvOr (jGetD user_data "email" .null)
                          (jGetD user_data "email_address" .null)),
           ("phone", jvOr (jGetD user_data "phone" .null)
                          (jGetD user_data "phone_number" (.str "")))]),
        ("user_preferences", jGetD user_data "preferences" (.obj [])),
        ("rendered_content", rendered),
        ("metadata", .obj
          [("template_key", .str template_key),
           ("preferred_language", jGetD user_data "preferred_language" (.str "en"))])]

/-- `publish_to_queue`: with no MQ driver the publish is mocked; a pika
failure is caught and re-raised as `HTTPException(503, ...)`. -/
def publish_to_queue (hasMqDriver publishOk : Bool) : Except PyExc Unit :=
  if !hasMqDriver then .ok ()
  else if publishOk then .ok ()
  else .error (.httpException 503
    "Message Queue service is unavailable. Cannot enqueue notification.")

/-- Steps 3–4 of `send_notification`: build the envelope, publish with
`retry_with_backoff(max_retries=3)`, store the idempotency record on
success. `MaxRetriesExceededError` maps to 503; any other exception —
including the `HTTPException` that `publish_to_queue` actually raises — is
caught by the final generic handler and mapped to 500. An envelope counts as
published only when the driver is present and the broker accepted it. -/
def gw_publish_step (env : GatewayEnv) (st : GatewayState)
    (req : NotificationRequest) (key : Option String) (user_data rendered : JVal)
    (ub tb : BreakerState) (uCalls tCalls : Nat) : GatewayResult :=
  let final_payload := build_final_payload user_data rendered req.template_key
  let uidv := jGetD final_payload "user_id" .null
  if !jvTruthy uidv then
    -- `raise ValueError(...)` is not caught by the surrounding
    -- `except KeyError` handler: it escapes the endpoint and FastAPI
    -- produces its generic 500 response.
    { response := { statusCode := 500,
                    body := .obj [("detail", .str "Internal Server Error")] }
      userHttpCalls := uCalls, templateHttpCalls := tCalls
      envelopesPublished := 0, idemStored := false, idemStore := st.idemStore
      userBreaker := ub, templateBreaker := tb }
  else
    match retry_with_backoff 3 (fun _ => publish_to_queue env.hasMqDriver env.publishOk) with
    | .ok _ =>
        let response_data : JVal :=
          .obj [("notification_id", uidv),
                ("request_id", .str env.requestId),
                ("idempotency_key", .str
                  (if optStrTruthy key then key.getD "" else "auto-generated"))]
        let doStore := optStrTruthy key && env.idemManagerUp
        { response := success_response response_data
            "Notification successfully queued for delivery." 202
          userHttpCalls := uCalls, templateHttpCalls := tCalls
          envelopesPublished := if env.hasMqDriver then 1 else 0
          idemStored := doStore && env.idemStoreOk
          idemStore :=
            if doStore then
              store_response st.idemStore (key.getD "") response_data env.now
                env.idemStoreOk
            else st.idemStore
          userBreaker := ub, templateBreaker := tb }
    | .error (.maxRetriesExceeded m) =>
        { response := error_response (.str "Service temporarily unavailable") 503
            (some (.str ("Failed to publish to queue after multiple retries: " ++ m)))
          userHttpCalls := uCalls, templateHttpCalls := tCalls
          envelopesPublished := 0, idemStored := false, idemStore := st.idemStore
          userBreaker := ub, templateBreaker := tb }
    | .error e =>
        { response := error_response (.str "Failed to process notification") 500
            (some (.str ("Failed to queue notification: " ++ pyExcStr e)))
          userHttpCalls := uCalls, templateHttpCalls := tCalls
          envelopesPublished := 0, idemStored := false, idemStore := st.idemStore
          userBreaker := ub, templateBreaker := tb }

/-- The idempotency replay check at the top of `send_notification`: with a
truthy `X-Idempotency-Key` and a live idempotency manager, a truthy cached
response short-circuits the request. -/
def gw_replay (env : GatewayEnv) (st : GatewayState) (key : Option String) :
    Option JVal :=
  if optStrTruthy key && env.idemManagerUp then
    match check_duplicate st.idemStore (key.getD "") env.idemGetOk with
    | some r => if jvTruthy r then some r else none
    | none => none
  else none

/-- `POST /v1/notifications` (`send_notification` in `src/api_gateway.py`):
idempotency replay check, breaker-protected profile fetch, breaker-protected
template render, envelope publish, idempotency store. -/
def send_notification (env : GatewayEnv) (st : GatewayState)
    (req : NotificationRequest) (key : Option String) : GatewayResult :=
  match gw_replay env st key with
  | some r =>
      { response := { statusCode := 202, body := r }
        userHttpCalls := 0, templateHttpCalls := 0, envelopesPublished := 0
        idemStored := false, idemStore := st.idemStore
        userBreaker := st.userBreaker, templateBreaker := st.templateBreaker }
  | none =>
    match gw_user_step st.userBreaker env.userOutcome req.user_id with
    | (.error resp, ub, uCalls) =>
        { response := resp, userHttpCalls := uCalls, templateHttpCalls := 0
          envelopesPublished := 0, idemStored := false, idemStore := st.idemStore
          userBreaker := ub, templateBreaker := st.templateBreaker }
    | (.ok user_data, ub, uCalls) =>
      match gw_template_step st.templateBreaker env.templateOutcome with
      | (.error resp, tb, tCalls) =>
          { response := resp, userHttpCalls := uCalls, templateHttpCalls := tCalls
            envelopesPublished := 0, idemStored := false, idemStore := st.idemStore
            userBreaker := ub, templateBreaker := tb }
      | (.ok rendered, tb, tCalls) =>
          gw_publish_step env st req key user_data rendered ub tb uCalls tCalls

/-! ## Router (`src/worker_services/emailservice1/notification_router.py`) -/

/-- One `basic_publish` issued by the router. -/
structure RPublish where
  exchange : String
  routingKey : String
  body : JVal

/-- What the router does with the delivery after processing. -/
inductive AckAction where
  | ack
  | nackRequeue
  | nackNoRequeue
deriving DecidableEq, Repr

/-- Attempt the fan-out publishes in order; `pubOk i` says whether the i-th
`basic_publish` succeeds. On a failure the exception propagates with the
publishes already performed. -/
def tryPublishes (pubOk : Nat → Bool) : Nat → List RPublish →
    Except (List RPublish) (List RPublish)
  | _, [] => .ok []
  | i, p :: rest =>
      if pubOk i then
        match tryPublishes pubOk (i + 1) rest with
        | .ok l => .ok (p :: l)
        | .error l => .error (p :: l)
      else .error []

/-- The `rendered_content` normalization at the top of `route_notification`:
a dict holding a `data` key is unwrapped. -/
def routerRendered (raw : JVal) : JVal :=
  match raw with
  | .obj _ => if jHasKey raw "data" then jGetD raw "data" (.obj []) else raw
  | _ => raw

/-- The Email channel message built by `route_notification`. -/
def routerEmailMessage (user_id emailAddr rendered metadata : JVal) : JVal :=
  .obj [("notification_id", user_id), ("user_id", user_id),
        ("to", emailAddr),
        ("subject", jGetD rendered "subject" (.str "Notification")),
        ("content", jvOr (jGetD rendered "html_body" .null)
          (jvOr (jGetD rendered "html" .null)
            (jvOr (jGetD rendered "body" .null)
              (jvOr (jGetD rendered "content" .null) (.str ""))))),
        ("template_id", .null),
        ("data", .obj [("template_key", jGetD metadata "template_key" .null),
                       ("language", jGetD metadata "preferred_language" (.str "en"))])]

/-- The Push channel message built by `route_notification`; the target
prefers the FCM token from `user_preferences` over the phone number. -/
def routerPushMessage (user_id fcm phone rendered metadata : JVal) : JVal :=
  .obj [("notification_id", user_id), ("user_id", user_id),
        ("target", jvOr fcm phone),
        ("title", jGetD rendered "subject" (.str "Notification")),
        ("body", jGetD rendered "body" (.str "")),
        ("data", .obj [("template_key", jGetD metadata "template_key" .null),
                       ("language", jGetD metadata "preferred_language" (.str "en")),
                       ("user_id", user_id)])]

/-- `NotificationRouter.route_notification`: publish an Email channel message
on `notify.email` when `delivery_targets.email` is truthy, and a Push
channel message on `notify.push` when `delivery_targets.phone` or
`user_preferences.fcm_token` is truthy. Returns the successful publishes and
`routed_count`, or (`.error`) the publishes completed before a publish
exception. -/
def route_notification (pubOk : Nat → Bool) (m : JVal) :
    Except (List RPublish) (List RPublish × Nat) :=
  let user_id := jGetD m "user_id" (.str "unknown")
  let delivery_targets := jGetD m "delivery_targets" (.obj [])
  let rendered := routerRendered (jGetD m "rendered_content" (.obj []))
  let metadata := jGetD m "metadata" (.obj [])
  let user_preferences := jGetD m "user_preferences" (.obj [])
  let emailAddr := jGetD delivery_targets "email" .null
  let phone := jGetD delivery_targets "phone" .null
  let fcm := jGetD user_preferences "fcm_token" .null
  let emailPubs : List RPublish :=
    if jvTruthy emailAddr then
      [{ exchange := "notifications.direct", routingKey := "notify.email",
         body := routerEmailMessage user_id emailAddr rendered metadata }]
    else []
  let pushPubs : List RPublish :=
    if jvTruthy phone || jvTruthy fcm then
      [{ exchange := "notifications.direct", routingKey := "notify.push",
         body := routerPushMessage user_id fcm phone rendered metadata }]
    else []
  match tryPublishes pubOk 0 (emailPubs ++ pushPubs) with
  | .ok l => .ok (l, l.length)
  | .error l => .error l

/-- `NotificationRouter.process_message`: a JSON parse failure is acked and
dropped; a routed (or routable-to-nothing) envelope is acked; any exception
while routing is nacked with `requeue=True`. -/
def router_process_message (pubOk : Nat → Bool) (parsedBody : Option JVal) :
    List RPublish × AckAction :=
  match parsedBody with
  | none => ([], .ack)
  | some m =>
      match route_notification pubOk m with
      | .ok (pubs, _) => (pubs, .ack)
      | .error pubs => (pubs, .nackRequeue)

/-! ## Email channel worker and retry sweeper
(`src/worker_services/emailservice1/email_service.py`) -/

/-- AMQP header values used by the worker (ints and strings). -/
inductive HVal where
  | n (v : Nat)
  | s (v : String)
deriving DecidableEq, Repr

/-- AMQP message headers. -/
abbrev Headers := List (String × HVal)

/-- `headers.get(k, default)` for an int-valued header. -/
def hdrNatD (h : Headers) (k : String) (d : Nat) : Nat :=
  match h.lookup k with
  | some (.n v) => v
  | _ => d

/-- `headers.get(k, default)` for a string-valued header. -/
def hdrStrD (h : Headers) (k : String) (d : String) : String :=
  match h.lookup k with
  | some (.s v) => v
  | _ => d

/-- Broker operations a worker performs on its channel, in order. -/
inductive MqOp where
  | publish (exchange routingKey : String) (body : String) (headers : Headers)
  | ackOp
  | nackOp (requeue : Bool)
deriving DecidableEq, Repr

/-- `MAX_RETRIES = 5` in `email_service.py`. -/
def MAX_RETRIES : Nat := 5

/-- `EmailService._move_to_dlq`: republish the original body to
`notifications.dlx` (routing key `email`) with the incoming retry count, the
error truncated to 500 characters and the failure time, then ack the
original delivery; if that publish itself fails, nack without requeue. -/
def move_to_dlq (pubOk : Bool) (now : Nat) (h : Headers) (body : String)
    (error : String) : List MqOp :=
  if pubOk then
    [.publish "notifications.dlx" "email" body
      [("x-retry-count", .n (hdrNatD h "x-retry-count" 0)),
       ("x-last-error", .s (error.take 500)),
       ("x-failed-time", .n now)],
     .ackOp]
  else [.nackOp false]

/-- One message handled by `EmailService._retry_worker`: at or above
`MAX_RETRIES` the body goes to the terminal `email.dlq` with an
`x-final-failure-time` header; below it, it is republished to
`notifications.direct` / `notify.email` with the retry count incremented.
The fail-queue delivery is acked in both branches, after the publish. -/
def retry_sweep_message (now : Nat) (h : Headers) (body : String) :
    List MqOp :=
  let rc := hdrNatD h "x-retry-count" 0
  let le := hdrStrD h "x-last-error" "Unknown error"
  if MAX_RETRIES ≤ rc then
    [.publish "" "email.dlq" body
      [("x-retry-count", .n rc), ("x-last-error", .s le),
       ("x-final-failure-time", .n now)],
     .ackOp]
  else
    [.publish "notifications.direct" "notify.email" body
      [("x-retry-count", .n (rc + 1)), ("x-last-error", .s le)],
     .ackOp]

/-- Headers of the first publish in a worker operation sequence. -/
def pubHeaders : List MqOp → Headers
  | .publish _ _ _ hs :: _ => hs
  | _ => []

/-- Exchange of the first publish in a worker operation sequence. -/
def pubExchange : List MqOp → String
  | .publish ex _ _ _ :: _ => ex
  | _ => ""

/-- Did this sweeper action re-inject the message into the channel queue
(as opposed to promoting it to the terminal DLQ)? -/
def sweepReinjects (ops : List MqOp) : Bool :=
  pubExchange ops == "notifications.direct"

/-- Number of re-injections the sweeper performs for a message that keeps
failing, starting from retry count `c` (with `fuel` sweeper encounters
available): each re-injection carries the incremented count, the worker
fails again and `_move_to_dlq` preserves that count on `failed.queue`. -/
def sweeper_reinjections (now : Nat) (body : String) : Nat → Nat → Nat
  | 0, _ => 0
  | fuel + 1, c =>
      let ops := retry_sweep_message now [("x-retry-count", .n c)] body
      if sweepReinjects ops then
        1 + sweeper_reinjections now body fuel
              (hdrNatD (pubHeaders ops) "x-retry-count" 0)
      else 0

/-- The retry count under which a message reappears on `failed.queue` after
one sweeper re-injection followed by another worker failure: the sweeper
publishes it with `x-retry-count = c+1` and `_move_to_dlq` republishes the
failing delivery with that same count. -/
def failSweepCycleCount (now later : Nat) (c : Nat) (body err : String) : Nat :=
  hdrNatD
    (pubHeaders (move_to_dlq true later
      (pubHeaders (retry_sweep_message now [("x-retry-count", .n c)] body))
      body err))
    "x-retry-count" 0

/-! ## Broker topology initializer (`src/rabbitmq.py`) -/

/-- An exchange declaration. -/
structure ExchangeDecl where
  name : String
  kind : String
  durable : Bool
deriving DecidableEq, Repr

/-- A queue declaration with its arguments table. -/
structure QueueDecl where
  name : String
  durable : Bool
  arguments : List (String × String)
deriving DecidableEq, Repr

/-- A binding (routing key empty for the fanout DLX binding). -/
structure QBinding where
  exchange : String
  queue : String
  routingKey : String
deriving DecidableEq, Repr

/-- The declarations `src/rabbitmq.py` performs, in order: the fanout DLX
and `failed.queue` (durable, no arguments) bound to it; the direct main
exchange; `email.queue` and `push.queue` durable with
`x-dead-letter-exchange = notifications.dlx` (and, per the source comment,
no `x-dead-letter-routing-key` since the DLX is fanout); bindings
`notify.email → email.queue` and `notify.push → push.queue`. -/
def rabbitmq_exchanges : List ExchangeDecl :=
  [{ name := "notifications.dlx", kind := "fanout", durable := true },
   { name := "notifications.direct", kind := "direct", durable := true }]

/-- Queues declared by `src/rabbitmq.py`. -/
def rabbitmq_queues : List QueueDecl :=
  [{ name := "failed.queue", durable := true, arguments := [] },
   { name := "email.queue", durable := true,
     arguments := [("x-dead-letter-exchange", "notifications.dlx")] },
   { name := "push.queue", durable := true,
     arguments := [("x-dead-letter-exchange", "notifications.dlx")] }]

/-- Bindings declared by `src/rabbitmq.py`. -/
def rabbitmq_bindings : List QBinding :=
  [{ exchange := "notifications.dlx", queue := "failed.queue", routingKey := "" },
   { exchange := "notifications.direct", queue := "email.queue",
     routingKey := "notify.email" },
   { exchange := "notifications.direct", queue := "push.queue",
     routingKey := "notify.push" }]

/-- The arguments a queue is declared with (empty if not declared). -/
def queueArguments (qname : String) : List (String × String) :=
  match rabbitmq_queues.find? (fun q => q.name == qname) with
  | some q => q.arguments
  | none => []

/-! ## Template rendering (`src/template_service.py` `render_content`) -/

/-- A parsed template: literal runs and `\x7bname\x7d` placeholders, as
consumed by Python `str.format`. -/
inductive TplTok where
  | lit (s : String)
  | hole (name : String)
deriving DecidableEq, Repr

/-- `template.format(**data)`: substitute each placeholder by name; a
placeholder with no matching key raises `KeyError`, which `render_content`
converts to `HTTPException(400)`. The error value is the HTTP status. -/
def render_content : List TplTok → List (String × String) → Except Nat String
  | [], _ => .ok ""
  | .lit s :: rest, data => (render_content rest data).map (fun r => s ++ r)
  | .hole n :: rest, data =>
      match data.lookup n with
      | some v => (render_content rest data).map (fun r => v ++ r)
      | none => .error 400

/-! ## Concrete inputs used by counterexamples and witnesses -/

/-- A user-service 200 body (no `data` wrapper, so the gateway wraps it). -/
def exUserBody : JVal :=
  .obj [("user_id", .str "u1"), ("email", .str "a@b.c")]

/-- A template-service 200 body in the standard envelope. -/
def exTplBody : JVal :=
  .obj [("data", .obj [("subject", .str "S"), ("html_body", .str "H")])]

/-- A healthy environment: both upstreams answer, the broker accepts the
publish, Redis is up. -/
def exEnvOk : GatewayEnv :=
  { userOutcome := .ok exUserBody, templateOutcome := .ok exTplBody,
    hasMqDriver := true, publishOk := true, idemManagerUp := true,
    idemGetOk := true, idemStoreOk := true, requestId := "req-1", now := 100 }

/-- The same environment with a broker that rejects the publish. -/
def exEnvPubFail : GatewayEnv :=
  { exEnvOk with publishOk := false }

/-- Fresh gateway state: both breakers closed, empty idempotency keyspace. -/
def exSt0 : GatewayState :=
  { userBreaker := .closed 0, templateBreaker := .closed 0, idemStore := [] }

/-- A concrete submission request. -/
def exReq1 : NotificationRequest :=
  { user_id := "u1", template_key := "T", message_data := .obj [] }

/-- First submission under key `K1` against the healthy environment. -/
def exFirst : GatewayResult := send_notification exEnvOk exSt0 exReq1 (some "K1")

/-- Resubmission under the same key, against the state the first call left. -/
def exReplay : GatewayResult :=
  send_notification exEnvOk
    { userBreaker := .closed 0, templateBreaker := .closed 0,
      idemStore := exFirst.idemStore }
    exReq1 (some "K1")

/-- An envelope whose only delivery hint is `delivery_targets.push_token`. -/
def exPushTokenMsg : JVal :=
  .obj [("user_id", .str "u1"),
        ("delivery_targets", .obj [("push_token", .str "tok-1")])]

/-- An envelope with an email target only. -/
def exEmailMsg : JVal :=
  .obj [("user_id", .str "u1"),
        ("delivery_targets", .obj [("email", .str "a@b.c")])]

/-! ## Observation helpers -/

/-- Does the envelope make the email branch of `route_notification` fire? -/
def dtEmailTruthy (m : JVal) : Bool :=
  jvTruthy (jGetD (jGetD m "delivery_targets" (.obj [])) "email" .null)

/-- Does the envelope make the push branch of `route_notification` fire?
(The code tests `delivery_targets.phone` and `user_preferences.fcm_token`.) -/
def pushApplies (m : JVal) : Bool :=
  jvTruthy (jGetD (jGetD m "delivery_targets" (.obj [])) "phone" .null) ||
  jvTruthy (jGetD (jGetD m "user_preferences" (.obj [])) "fcm_token" .null)

/-- Number of publishes carrying a given routing key. -/
def countKey (pubs : List RPublish) (k : String) : Nat :=
  (pubs.filter (fun p => p.routingKey == k)).length

/-- The publishes `route_notification` performs when every publish succeeds. -/
def routeOkPubs (m : JVal) : List RPublish :=
  match route_notification (fun _ => true) m with
  | .ok (pubs, _) => pubs
  | .error pubs => pubs

/-- The breaker-trace invariant: the consecutive-failure counter never
exceeds the trailing run of executed connection failures, and the open and
half-open states are reached only behind at least `FAIL_MAX` of them. -/
def breakerInv : BreakerState × List CallOutcome → Prop
  | (.closed c, ex) => c ≤ trailingConn ex
  | (.opened, ex) => FAIL_MAX ≤ trailingConn ex
  | (.halfOpen, ex) => FAIL_MAX ≤ trailingConn ex

/-- The single Email publish `route_notification` would perform for `m`. -/
def emailPubOf (m : JVal) : RPublish :=
  { exchange := "notifications.direct", routingKey := "notify.email",
    body := routerEmailMessage (jGetD m "user_id" (.str "unknown"))
      (jGetD (jGetD m "delivery_targets" (.obj [])) "email" .null)
      (routerRendered (jGetD m "rendered_content" (.obj [])))
      (jGetD m "metadata" (.obj [])) }

/-- The single Push publish `route_notification` would perform for `m`. -/
def pushPubOf (m : JVal) : RPublish :=
  { exchange := "notifications.direct", routingKey := "notify.push",
    body := routerPushMessage (jGetD m "user_id" (.str "unknown"))
      (jGetD (jGetD m "user_preferences" (.obj [])) "fcm_token" .null)
      (jGetD (jGetD m "delivery_targets" (.obj [])) "phone" .null)
      (routerRendered (jGetD m "rendered_content" (.obj [])))
      (jGetD m "metadata" (.obj [])) }

/-- An envelope with a phone target only (push branch fires). -/
def exPhoneMsg : JVal :=
  .obj [("user_id", .str "u1"),
        ("delivery_targets", .obj [("phone", .str "+15550100")])]

/-- The healthy environment with a template service answering 400
(missing data key). -/
def exTpl400Body : JVal :=
  .obj [("detail", .str "Missing data key name required to render template.")]

/-- The healthy environment, but with the template service answering 400. -/
def exEnvTpl400 : GatewayEnv :=
  { exEnvOk with templateOutcome := HttpOutcome.errStatus 400 exTpl400Body }

/-- A stored idempotency response snapshot. -/
def exStoredResp : JVal := .obj [("notification_id", .str "n1")]

/-- Gateway state holding a completed idempotency record under key `K`. -/
def exStWithRecord : GatewayState :=
  { userBreaker := .closed 0, templateBreaker := .closed 0,
    idemStore := [(idem_get_key "K",
      .obj [("status", .str "completed"), ("response", exStoredResp),
            ("timestamp", .int 5)])] }

/-- Gateway state with the user-service breaker open. -/
def exStOpenU : GatewayState :=
  { userBreaker := .opened, templateBreaker := .closed 0, idemStore := [] }

/-- Gateway state with the template-service breaker open. -/
def exStOpenT : GatewayState :=
  { userBreaker := .closed 0, templateBreaker := .opened, idemStore := [] }

/-- Five consecutive connection-class failures. -/
def exEvs5 : List BreakerEvent := List.replicate 5 (.call .connFailure)

/-! ## Helper lemmas -/

theorem tryPublishes_all_ok (l : List RPublish) :
    ∀ i, tryPublishes (fun _ => true) i l = .ok l := by
  induction l with
  | nil => intro i; rfl
  | cons p rest ih => intro i; simp [tryPublishes, ih]

theorem route_notification_all_ok (m : JVal) :
    route_notification (fun _ => true) m =
      .ok ((if dtEmailTruthy m then [emailPubOf m] else []) ++
             (if pushApplies m then [pushPubOf m] else []),
           ((if dtEmailTruthy m then [emailPubOf m] else []) ++
             (if pushApplies m then [pushPubOf m] else [])).length) := by
  simp only [route_notification, dtEmailTruthy, pushApplies, emailPubOf, pushPubOf]
  rw [tryPublishes_all_ok]

theorem routeOkPubs_eq (m : JVal) :
    routeOkPubs m =
      (if dtEmailTruthy m then [emailPubOf m] else []) ++
        (if pushApplies m then [pushPubOf m] else []) := by
  simp [routeOkPubs, route_notification_all_ok]

theorem sweeper_reinjections_le_sub (now : Nat) (body : String) :
    ∀ fuel c, sweeper_reinjections now body fuel c ≤ MAX_RETRIES - c := by
  intro fuel
  induction fuel with
  | zero => intro c; simp [sweeper_reinjections]
  | succ n ih =>
      intro c
      by_cases h5 : MAX_RETRIES ≤ c
      · simp [sweeper_reinjections, retry_sweep_message, hdrNatD, hdrStrD,
          sweepReinjects, pubExchange, pubHeaders, List.lookup, h5]
      · have hrec := ih (c + 1)
        simp only [sweeper_reinjections, retry_sweep_message, hdrNatD, hdrStrD,
          sweepReinjects, pubExchange, pubHeaders, List.lookup, h5, if_neg,
          if_false, beq_self_eq_true, if_true]
        simp only [MAX_RETRIES] at h5 hrec ⊢
        omega

theorem trailingConn_append_conn (ex : List CallOutcome) :
    trailingConn (ex ++ [.connFailure]) = trailingConn ex + 1 := by
  simp [trailingConn, leadingConn]

theorem trailingConn_append_success (ex : List CallOutcome) :
    trailingConn (ex ++ [.success]) = 0 := by
  simp [trailingConn, leadingConn]

theorem trailingConn_append_excluded (ex : List CallOutcome) :
    trailingConn (ex ++ [.excludedError]) = 0 := by
  simp [trailingConn, leadingConn]

theorem breakerInv_step (s : BreakerState × List CallOutcome) (e : BreakerEvent)
    (h : breakerInv s) : breakerInv (breakerStep s e) := by
  obtain ⟨st, ex⟩ := s
  cases e with
  | timerExpire =>
      cases st <;> simp_all [breakerStep, breakerInv]
  | call o =>
      cases st with
      | opened => simpa [breakerStep, breakerAllowsCall] using h
      | closed c =>
          simp only [breakerInv] at h
          cases o with
          | success =>
              simp only [breakerStep, breakerAllowsCall, breakerAfterCall,
                breakerInv, if_true]
              rw [trailingConn_append_success]
          | excludedError =>
              simp only [breakerStep, breakerAllowsCall, breakerAfterCall,
                breakerInv, if_true]
              rw [trailingConn_append_excluded]
          | connFailure =>
              simp only [breakerStep, breakerAllowsCall, if_true]
              by_cases h5 : FAIL_MAX ≤ c + 1
              · have hb : breakerAfterCall (.closed c) .connFailure = .opened := by
                  simp [breakerAfterCall, h5]
                rw [hb]
                simp only [breakerInv, trailingConn_append_conn]
                omega
              · have hb : breakerAfterCall (.closed c) .connFailure =
                    .closed (c + 1) := by
                  simp [breakerAfterCall, h5]
                rw [hb]
                simp only [breakerInv, trailingConn_append_conn]
                omega
      | halfOpen =>
          simp only [breakerInv] at h
          cases o with
          | success =>
              simp only [breakerStep, breakerAllowsCall, breakerAfterCall,
                breakerInv, if_true]
              rw [trailingConn_append_success]
          | excludedError =>
              simp only [breakerStep, breakerAllowsCall, breakerAfterCall,
                breakerInv, if_true]
              rw [trailingConn_append_excluded]
          | connFailure =>
              simp only [breakerStep, breakerAllowsCall, breakerAfterCall,
                breakerInv, if_true]
              rw [trailingConn_append_conn]
              omega

theorem breakerRun_inv (evs : List BreakerEvent) :
    ∀ init, breakerInv init → breakerInv (breakerRun init evs) := by
  induction evs with
  | nil => intro init h; simpa [breakerRun] using h
  | cons e rest ih =>
      intro init h
      have hrw : breakerRun init (e :: rest) =
          breakerRun (breakerStep init e) rest := by
        simp [breakerRun]
      rw [hrw]
      exact ih _ (breakerInv_step init e h)

theorem render_content_missing_key (tpl : List TplTok)
    (data : List (String × String)) :
    (∃ n, TplTok.hole n ∈ tpl ∧ data.lookup n = none) →
    render_content tpl data = .error 400 := by
  induction tpl with
  | nil => rintro ⟨n, hn, -⟩; simp at hn
  | cons t rest ih =>
      rintro ⟨n, hn, hnone⟩
      cases t with
      | lit s =>
          have hr : render_content rest data = .error 400 := by
            apply ih
            exact ⟨n, by simpa using hn, hnone⟩
          simp [render_content, hr, Except.map]
      | hole m =>
          rcases List.mem_cons.mp hn with heq | hmem
          · cases heq
            simp [render_content, hnone]
          · cases hlk : data.lookup m with
            | none => simp [render_content, hlk]
            | some v =>
                have hr : render_content rest data = .error 400 :=
                  ih ⟨n, hmem, hnone⟩
                simp [render_content, hlk, hr, Except.map]

/-! ## Claims -/

/-- Claim C1 (amended): a submission whose `X-Idempotency-Key` hits a stored,
unexpired, truthy `completed` record short-circuits: the endpoint returns
HTTP 202 whose body is the stored response snapshot verbatim, issues no
profile call, no template call and no publish, and leaves the idempotency
store untouched. (The snapshot is the `data` object stored after the first
enqueue, not the full first response body, so the replay is not
byte-for-byte equal to the first response — see the counterexample.) -/
theorem idem_replay_returns_snapshot_no_downstream
    (env : GatewayEnv) (st : GatewayState) (req : NotificationRequest)
    (k : String) (r : JVal)
    (hk : k ≠ "") (hup : env.idemManagerUp = true)
    (hdup : check_duplicate st.idemStore k env.idemGetOk = some r)
    (htr : jvTruthy r = true) :
    send_notification env st req (some k) =
      { response := { statusCode := 202, body := r },
        userHttpCalls := 0, templateHttpCalls := 0, envelopesPublished := 0,
        idemStored := false, idemStore := st.idemStore,
        userBreaker := st.userBreaker, templateBreaker := st.templateBreaker } := by
  have hrep : gw_replay env st (some k) = some r := by
    unfold gw_replay
    rw [show (optStrTruthy (some k) && env.idemManagerUp) = true by
      simp [optStrTruthy, hup, hk]]
    simp only [if_true, Option.getD_some, hdup, htr]
  unfold send_notification
  rw [hrep]

/-- Witness for C1: the replay theorem applied to a concrete stored record. -/
theorem idem_replay_returns_snapshot_no_downstream_witness :
    send_notification exEnvOk exStWithRecord exReq1 (some "K") =
      { response := { statusCode := 202, body := exStoredResp },
        userHttpCalls := 0, templateHttpCalls := 0, envelopesPublished := 0,
        idemStored := false, idemStore := exStWithRecord.idemStore,
        userBreaker := exStWithRecord.userBreaker,
        templateBreaker := exStWithRecord.templateBreaker } :=
  idem_replay_returns_snapshot_no_downstream exEnvOk exStWithRecord exReq1 "K"
    exStoredResp (by decide) rfl rfl rfl

/-- Counterexample for C1 as frozen: the first 202 response wraps the data in
the `success`/`message`/`meta` envelope, while the replay returns only the
stored `data` object, so the two bodies are not byte-for-byte equal. -/
theorem idem_replay_not_byte_identical_counterexample :
    exFirst.response.statusCode = 202 ∧
    exReplay.response.statusCode = 202 ∧
    exReplay.envelopesPublished = 0 ∧
    jHasKey exFirst.response.body "success" = true ∧
    jHasKey exReplay.response.body "success" = false ∧
    exFirst.response.body ≠ exReplay.response.body := by
  refine ⟨rfl, rfl, rfl, rfl, rfl, ?_⟩
  intro hEq
  have h1 : jHasKey exFirst.response.body "success" = true := rfl
  have h2 : jHasKey exReplay.response.body "success" = false := rfl
  rw [hEq] at h1
  exact Bool.noConfusion (h2.symm.trans h1)

/-- Claim C2 (confirmed): a fail-queue message below `MAX_RETRIES` is
republished to the channel via `notifications.direct`/`notify.email` with
`x-retry-count` incremented and the delivery acked; at or above
`MAX_RETRIES` it is published to the terminal `email.dlq` with an
`x-final-failure-time` header and acked; and however long the fail/sweep
cycle runs, the sweeper re-injects a message at most `MAX_RETRIES` times. -/
theorem sweeper_retry_bound :
    (∀ now h body, hdrNatD h "x-retry-count" 0 < MAX_RETRIES →
      retry_sweep_message now h body =
        [.publish "notifications.direct" "notify.email" body
           [("x-retry-count", .n (hdrNatD h "x-retry-count" 0 + 1)),
            ("x-last-error", .s (hdrStrD h "x-last-error" "Unknown error"))],
         .ackOp]) ∧
    (∀ now h body, MAX_RETRIES ≤ hdrNatD h "x-retry-count" 0 →
      retry_sweep_message now h body =
        [.publish "" "email.dlq" body
           [("x-retry-count", .n (hdrNatD h "x-retry-count" 0)),
            ("x-last-error", .s (hdrStrD h "x-last-error" "Unknown error")),
            ("x-final-failure-time", .n now)],
         .ackOp]) ∧
    (∀ now body fuel c, sweeper_reinjections now body fuel c ≤ MAX_RETRIES) := by
  refine ⟨?_, ?_, ?_⟩
  · intro now h body hlt
    simp only [retry_sweep_message]
    rw [if_neg (by omega)]
  · intro now h body hge
    simp only [retry_sweep_message]
    rw [if_pos hge]
  · intro now body fuel c
    exact le_trans (sweeper_reinjections_le_sub now body fuel c) (Nat.sub_le _ _)

/-- Witness for C2: the sweeper at retry counts 2 and 9, and the re-injection
bound evaluated from count 0. -/
theorem sweeper_retry_bound_witness :
    retry_sweep_message 7 [("x-retry-count", HVal.n 2)] "B" =
      [.publish "notifications.direct" "notify.email" "B"
         [("x-retry-count", .n 3), ("x-last-error", .s "Unknown error")],
       .ackOp] ∧
    retry_sweep_message 7 [("x-retry-count", HVal.n 9)] "B" =
      [.publish "" "email.dlq" "B"
         [("x-retry-count", .n 9), ("x-last-error", .s "Unknown error"),
          ("x-final-failure-time", .n 7)],
       .ackOp] ∧
    sweeper_reinjections 7 "B" 10 0 ≤ MAX_RETRIES :=
  ⟨sweeper_retry_bound.1 7 [("x-retry-count", HVal.n 2)] "B" (by decide),
   sweeper_retry_bound.2.1 7 [("x-retry-count", HVal.n 9)] "B" (by decide),
   sweeper_retry_bound.2.2 7 "B" 10 0⟩

/-- Claim C3 (code bug): when the broker publish fails after validation,
profile fetch and rendering succeeded, no idempotency record is stored — but
the endpoint answers 500, not the specified 503: `publish_to_queue` raises
`HTTPException(503)`, which `retry_with_backoff` (catching only
`RequestException`) does not retry, and the endpoint generic handler turns
into a 500 `error_response`. -/
theorem publish_failure_returns_500_not_503 :
    (send_notification exEnvPubFail exSt0 exReq1 (some "K1")).response.statusCode = 500 ∧
    (send_notification exEnvPubFail exSt0 exReq1 (some "K1")).idemStored = false ∧
    (send_notification exEnvPubFail exSt0 exReq1 (some "K1")).envelopesPublished = 0 ∧
    (send_notification exEnvPubFail exSt0 exReq1 (some "K1")).idemStore = exSt0.idemStore :=
  ⟨rfl, rfl, rfl, rfl⟩

/-- Counterexample for C4 as frozen: an envelope carrying only
`delivery_targets.push_token` routes nothing — the router reads
`delivery_targets.phone` and `user_preferences.fcm_token`, never
`delivery_targets.push_token`. -/
theorem router_push_token_ignored_counterexample :
    jHasKey (jGetD exPushTokenMsg "delivery_targets" (.obj [])) "push_token" = true ∧
    route_notification (fun _ => true) exPushTokenMsg = .ok ([], 0) :=
  ⟨rfl, rfl⟩

/-- Claim C4 (amended): with all publishes succeeding, the router publishes
exactly one `notify.email` message when `delivery_targets.email` is truthy
and exactly one `notify.push` message when `delivery_targets.phone` or
`user_preferences.fcm_token` is truthy (target preferring the fcm token over
the phone, as `pushPubOf` records); it never duplicates a channel, and when
neither channel applies it acks the envelope having published nothing. -/
theorem router_fanout_behavior (m : JVal) :
    route_notification (fun _ => true) m = .ok (routeOkPubs m, (routeOkPubs m).length) ∧
    countKey (routeOkPubs m) "notify.email" = (if dtEmailTruthy m then 1 else 0) ∧
    countKey (routeOkPubs m) "notify.push" = (if pushApplies m then 1 else 0) ∧
    (routeOkPubs m).length ≤ 2 ∧
    (dtEmailTruthy m = false → pushApplies m = false →
       router_process_message (fun _ => true) (some m) = ([], .ack)) ∧
    (∀ p ∈ routeOkPubs m, p.routingKey = "notify.push" → p = pushPubOf m) := by
  refine ⟨?_, ?_, ?_, ?_, ?_, ?_⟩
  · rw [route_notification_all_ok, routeOkPubs_eq]
  · rw [routeOkPubs_eq]
    by_cases he : dtEmailTruthy m <;> by_cases hp : pushApplies m <;>
      simp [he, hp, countKey, emailPubOf, pushPubOf]
  · rw [routeOkPubs_eq]
    by_cases he : dtEmailTruthy m <;> by_cases hp : pushApplies m <;>
      simp [he, hp, countKey, emailPubOf, pushPubOf]
  · rw [routeOkPubs_eq]
    by_cases he : dtEmailTruthy m <;> by_cases hp : pushApplies m <;>
      simp [he, hp]
  · intro he hp
    have hr : route_notification (fun _ => true) m = .ok ([], 0) := by
      rw [route_notification_all_ok]
      simp [he, hp]
    simp [router_process_message, hr]
  · rw [routeOkPubs_eq]
    intro p hmem hkey
    by_cases he : dtEmailTruthy m <;> by_cases hp : pushApplies m <;>
      simp [he, hp] at hmem
    · rcases hmem with h1 | h1
      · rw [h1] at hkey
        simp [emailPubOf] at hkey
      · exact h1
    · rw [hmem] at hkey
      simp [emailPubOf] at hkey
    · exact hmem

/-- Witness for C4: the fan-out theorem applied to an envelope with no
targets (ack, nothing published) and to a phone-only envelope (one push). -/
theorem router_fanout_behavior_witness :
    router_process_message (fun _ => true) (some (JVal.obj [])) = ([], .ack) ∧
    countKey (routeOkPubs exPhoneMsg) "notify.push" = 1 := by
  constructor
  · exact (router_fanout_behavior (JVal.obj [])).2.2.2.2.1 rfl rfl
  · have h := (router_fanout_behavior exPhoneMsg).2.2.1
    rw [h]
    rfl

/-- Counterexample for C5 as frozen: on a publish failure the router nacks
the delivery with `requeue=True`, not without requeue — the envelope is
returned to the `notifications` queue. -/
theorem router_nack_requeues_counterexample :
    dtEmailTruthy exEmailMsg = true ∧
    router_process_message (fun _ => false) (some exEmailMsg) = ([], .nackRequeue) ∧
    AckAction.nackRequeue ≠ AckAction.nackNoRequeue :=
  ⟨rfl, rfl, by decide⟩

/-- Claim C5 (amended): the router acks only after every applicable channel
publish has succeeded, and on a publish failure mid-fan-out it nacks the
delivery with `requeue=True` (the envelope is requeued, not dropped). -/
theorem router_ack_discipline :
    (∀ (pubOk : Nat → Bool) (m : JVal) (pubs : List RPublish) (n : Nat),
       route_notification pubOk m = .ok (pubs, n) →
       router_process_message pubOk (some m) = (pubs, .ack)) ∧
    (∀ (pubOk : Nat → Bool) (m : JVal) (pubs : List RPublish),
       route_notification pubOk m = .error pubs →
       router_process_message pubOk (some m) = (pubs, .nackRequeue)) := by
  constructor
  · intro pubOk m pubs n h
    simp [router_process_message, h]
  · intro pubOk m pubs h
    simp [router_process_message, h]

/-- Witness for C5: the ack discipline applied to the email-only envelope,
once with the publish succeeding and once with it failing. -/
theorem router_ack_discipline_witness :
    router_process_message (fun _ => true) (some exEmailMsg) =
      ([emailPubOf exEmailMsg], .ack) ∧
    router_process_message (fun _ => false) (some exEmailMsg) =
      ([], .nackRequeue) :=
  ⟨router_ack_discipline.1 (fun _ => true) exEmailMsg [emailPubOf exEmailMsg] 1 rfl,
   router_ack_discipline.2 (fun _ => false) exEmailMsg [] rfl⟩

/-- Claim C6 (confirmed): `_move_to_dlq` republishes the original body
unchanged to `notifications.dlx` with `x-retry-count` equal to the incoming
count, `x-last-error` truncated to 500 characters and `x-failed-time` in
unix seconds, and only then acks; and across a sweeper re-injection followed
by another worker failure the count on `failed.queue` strictly increases. -/
theorem dead_letter_procedure :
    (∀ now h body err,
      move_to_dlq true now h body err =
        [.publish "notifications.dlx" "email" body
           [("x-retry-count", .n (hdrNatD h "x-retry-count" 0)),
            ("x-last-error", .s (err.take 500)),
            ("x-failed-time", .n now)],
         .ackOp]) ∧
    (∀ now later c body err, c < MAX_RETRIES →
      failSweepCycleCount now later c body err = c + 1 ∧
      c < failSweepCycleCount now later c body err) := by
  refine ⟨fun now h body err => rfl, ?_⟩
  intro now later c body err hc
  have heq : failSweepCycleCount now later c body err = c + 1 := by
    simp only [failSweepCycleCount, retry_sweep_message, hdrNatD, hdrStrD,
      List.lookup, beq_self_eq_true, if_true]
    rw [if_neg (by simpa [hdrNatD, List.lookup] using Nat.not_le.mpr hc)]
    simp [move_to_dlq, pubHeaders, hdrNatD, List.lookup]
  exact ⟨heq, by omega⟩

/-- Witness for C6: the dead-letter procedure at retry count 1 and the
fail/sweep cycle from count 2. -/
theorem dead_letter_procedure_witness :
    move_to_dlq true 7 [("x-retry-count", HVal.n 1)] "B" "boom" =
      [.publish "notifications.dlx" "email" "B"
         [("x-retry-count", .n 1), ("x-last-error", .s ("boom".take 500)),
          ("x-failed-time", .n 7)],
       .ackOp] ∧
    failSweepCycleCount 7 9 2 "B" "boom" = 3 ∧
    2 < failSweepCycleCount 7 9 2 "B" "boom" := by
  refine ⟨?_, ?_, ?_⟩
  · have h := dead_letter_procedure.1 7 [("x-retry-count", HVal.n 1)] "B" "boom"
    exact h
  · exact (dead_letter_procedure.2 7 9 2 "B" "boom" (by decide)).1
  · exact (dead_letter_procedure.2 7 9 2 "B" "boom" (by decide)).2

/-- Claim C7 (confirmed): a template containing a placeholder with no
matching key in the supplied data renders to a 400 error (never a blank
substitution), and the Submission API surfaces an upstream 400 to the client
with no envelope published and no idempotency record stored. -/
theorem missing_template_data_yields_400_no_envelope :
    (∀ tpl data, (∃ n, TplTok.hole n ∈ tpl ∧ data.lookup n = none) →
       render_content tpl data = .error 400) ∧
    (∀ (env : GatewayEnv) (st : GatewayState) (req : NotificationRequest)
       (ud : JVal) (ub : BreakerState) (n : Nat) (body : JVal),
       gw_user_step st.userBreaker env.userOutcome req.user_id = (.ok ud, ub, n) →
       breakerAllowsCall st.templateBreaker = true →
       env.templateOutcome = .errStatus 400 body →
       (send_notification env st req none).response.statusCode = 400 ∧
       (send_notification env st req none).envelopesPublished = 0 ∧
       (send_notification env st req none).idemStored = false) := by
  constructor
  · exact render_content_missing_key
  · intro env st req ud ub n body hu ht hout
    have hrep : gw_replay env st none = none := by
      simp [gw_replay, optStrTruthy]
    unfold send_notification
    rw [hrep, hu]
    have htpl : gw_template_step st.templateBreaker env.templateOutcome =
        (.error (error_response
          (jGetD body "detail" (.str "Template rendering failed due to bad input."))
          400 none), breakerAfterCall st.templateBreaker .excludedError, 1) := by
      unfold gw_template_step
      rw [ht, hout]
      simp
    rw [htpl]
    exact ⟨rfl, rfl, rfl⟩

/-- Witness for C7: a template with an unresolved `name` placeholder, and the
gateway against a template service answering 400. -/
theorem missing_template_data_yields_400_no_envelope_witness :
    render_content [TplTok.lit "Hi ", TplTok.hole "name"] [] = .error 400 ∧
    ((send_notification exEnvTpl400 exSt0 exReq1 none).response.statusCode = 400 ∧
     (send_notification exEnvTpl400 exSt0 exReq1 none).envelopesPublished = 0 ∧
     (send_notification exEnvTpl400 exSt0 exReq1 none).idemStored = false) :=
  ⟨missing_template_data_yields_400_no_envelope.1
     [TplTok.lit "Hi ", TplTok.hole "name"] [] ⟨"name", by decide, rfl⟩,
   missing_template_data_yields_400_no_envelope.2 exEnvTpl400 exSt0 exReq1
     exUserBody (.closed 0) 1 exTpl400Body rfl rfl rfl⟩

/-- Claim C8 (confirmed): with a breaker open the gateway issues no
corresponding upstream HTTP call and (absent an idempotent replay) answers
503; a breaker run from the initial closed state reaches the open state only
behind at least `FAIL_MAX = 5` trailing consecutive connection-class
failures among the executed calls; excluded well-formed HTTP errors reset
the failure counter and never advance it. -/
theorem circuit_breaker_fail_fast_and_open_only_after_five :
    (∀ (env : GatewayEnv) (st : GatewayState) (req : NotificationRequest)
       (key : Option String), st.userBreaker = .opened →
       (send_notification env st req key).userHttpCalls = 0 ∧
       (send_notification env st req key).templateHttpCalls = 0 ∧
       (send_notification env st req key).envelopesPublished = 0) ∧
    (∀ (env : GatewayEnv) (st : GatewayState) (req : NotificationRequest),
       st.userBreaker = .opened →
       (send_notification env st req none).response.statusCode = 503) ∧
    (∀ (env : GatewayEnv) (st : GatewayState) (req : NotificationRequest)
       (key : Option String), st.templateBreaker = .opened →
       (send_notification env st req key).templateHttpCalls = 0 ∧
       (send_notification env st req key).envelopesPublished = 0) ∧
    (∀ (env : GatewayEnv) (st : GatewayState) (req : NotificationRequest)
       (ud : JVal) (ub : BreakerState) (n : Nat),
       st.templateBreaker = .opened →
       gw_user_step st.userBreaker env.userOutcome req.user_id = (.ok ud, ub, n) →
       (send_notification env st req none).response.statusCode = 503) ∧
    (∀ evs : List BreakerEvent,
       (breakerRun (.closed 0, []) evs).1 = .opened →
       FAIL_MAX ≤ trailingConn (breakerRun (.closed 0, []) evs).2) ∧
    (∀ c, breakerAfterCall (.closed c) .excludedError = .closed 0) ∧
    (∀ c, c + 1 < FAIL_MAX →
       breakerAfterCall (.closed c) .connFailure = .closed (c + 1)) ∧
    breakerAfterCall (.closed (FAIL_MAX - 1)) .connFailure = .opened := by
  refine ⟨?_, ?_, ?_, ?_, ?_, ?_, ?_, ?_⟩
  · intro env st req key hub
    unfold send_notification
    cases hrep : gw_replay env st key with
    | some r => exact ⟨rfl, rfl, rfl⟩
    | none =>
        rw [hub]
        have hu : gw_user_step .opened env.userOutcome req.user_id =
            (.error (error_response
              (.str "User Service is temporarily unavailable (Circuit Breaker OPEN). Try again later.")
              503 none), .opened, 0) := rfl
        rw [hu]
        exact ⟨rfl, rfl, rfl⟩
  · intro env st req hub
    unfold send_notification
    have hrep : gw_replay env st none = none := by
      simp [gw_replay, optStrTruthy]
    rw [hrep, hub]
    rfl
  · intro env st req key htb
    unfold send_notification
    cases hrep : gw_replay env st key with
    | some r => exact ⟨rfl, rfl⟩
    | none =>
        rcases hu : gw_user_step st.userBreaker env.userOutcome req.user_id with
          ⟨res, ub2, n⟩
        cases res with
        | error resp => exact ⟨rfl, rfl⟩
        | ok ud =>
            rw [htb]
            have ht : gw_template_step .opened env.templateOutcome =
                (.error (error_response
                  (.str "Template Service is temporarily unavailable (Circuit Breaker OPEN). Try again later.")
                  503 none), .opened, 0) := rfl
            rw [ht]
            exact ⟨rfl, rfl⟩
  · intro env st req ud ub n htb hu
    unfold send_notification
    have hrep : gw_replay env st none = none := by
      simp [gw_replay, optStrTruthy]
    rw [hrep, hu, htb]
    rfl
  · intro evs hopen
    have hinv := breakerRun_inv evs (.closed 0, [])
      (by simp [breakerInv, trailingConn, leadingConn])
    rcases hfin : breakerRun (.closed 0, []) evs with ⟨s, ex⟩
    rw [hfin] at hinv hopen
    simp only at hopen
    subst hopen
    simpa [breakerInv] using hinv
  · intro c
    rfl
  · intro c hlt
    have h : breakerAfterCall (.closed c) .connFailure =
        if FAIL_MAX ≤ c + 1 then .opened else .closed (c + 1) := rfl
    rw [h, if_neg (by omega)]
  · rfl

/-- Witness for C8: open breakers against the healthy environment, five
consecutive connection failures opening the breaker, and the counter facts. -/
theorem circuit_breaker_fail_fast_witness :
    (send_notification exEnvOk exStOpenU exReq1 none).userHttpCalls = 0 ∧
    (send_notification exEnvOk exStOpenU exReq1 none).response.statusCode = 503 ∧
    (send_notification exEnvOk exStOpenT exReq1 none).templateHttpCalls = 0 ∧
    (send_notification exEnvOk exStOpenT exReq1 none).response.statusCode = 503 ∧
    FAIL_MAX ≤ trailingConn (breakerRun (.closed 0, []) exEvs5).2 ∧
    breakerAfterCall (.closed 1) .connFailure = .closed 2 := by
  refine ⟨?_, ?_, ?_, ?_, ?_, ?_⟩
  · exact (circuit_breaker_fail_fast_and_open_only_after_five.1
      exEnvOk exStOpenU exReq1 none rfl).1
  · exact circuit_breaker_fail_fast_and_open_only_after_five.2.1
      exEnvOk exStOpenU exReq1 rfl
  · exact (circuit_breaker_fail_fast_and_open_only_after_five.2.2.1
      exEnvOk exStOpenT exReq1 none rfl).1
  · exact circuit_breaker_fail_fast_and_open_only_after_five.2.2.2.1
      exEnvOk exStOpenT exReq1 exUserBody (.closed 0) 1 rfl rfl
  · exact circuit_breaker_fail_fast_and_open_only_after_five.2.2.2.2.1
      exEvs5 rfl
  · exact circuit_breaker_fail_fast_and_open_only_after_five.2.2.2.2.2.2.1
      1 (by decide)

/-- Counterexample for C9 as frozen: the initializer declares `failed.queue`
with no `x-message-ttl` and no `x-max-length` argument, and the channel
queues with no `x-dead-letter-routing-key`. -/
theorem topology_arguments_counterexample :
    (queueArguments "failed.queue").lookup "x-message-ttl" = none ∧
    (queueArguments "failed.queue").lookup "x-max-length" = none ∧
    (queueArguments "email.queue").lookup "x-dead-letter-routing-key" = none ∧
    (queueArguments "push.queue").lookup "x-dead-letter-routing-key" = none := by
  decide

/-- Claim C9 (amended): after `src/rabbitmq.py` runs, `failed.queue` exists
durable with no extra arguments and is bound to `notifications.dlx`, and
`email.queue` / `push.queue` exist durable with
`x-dead-letter-exchange = notifications.dlx` (and no dead-letter routing
key), bound to `notifications.direct` under `notify.email` / `notify.push`. -/
theorem topology_as_declared :
    queueArguments "failed.queue" = [] ∧
    queueArguments "email.queue" = [("x-dead-letter-exchange", "notifications.dlx")] ∧
    queueArguments "push.queue" = [("x-dead-letter-exchange", "notifications.dlx")] ∧
    (∀ q ∈ rabbitmq_queues, q.durable = true) ∧
    QBinding.mk "notifications.dlx" "failed.queue" "" ∈ rabbitmq_bindings ∧
    QBinding.mk "notifications.direct" "email.queue" "notify.email" ∈ rabbitmq_bindings ∧
    QBinding.mk "notifications.direct" "push.queue" "notify.push" ∈ rabbitmq_bindings ∧
    ExchangeDecl.mk "notifications.dlx" "fanout" true ∈ rabbitmq_exchanges ∧
    ExchangeDecl.mk "notifications.direct" "direct" true ∈ rabbitmq_exchanges := by
  decide

/-- Claim C10 (confirmed): a message from the `notifications` queue whose
body is not valid JSON is acked and dropped by the router — it is neither
requeued nor dead-lettered, and nothing is published. -/
theorem router_malformed_json_acked_and_dropped (pubOk : Nat → Bool) :
    router_process_message pubOk none = ([], .ack) := rfl
